import Mathlib

/-
Verification of the pentagram AirPlay crypto core against its design
specification.

The repository source under scrutiny is the JNI binding layer
(fairplay_jni.c and mirror_buffer_jni.c); the core library it wraps
(fairplay.c / mirror_buffer.c) is not part of the available sources, so
those functions are modelled from the specification (each such definition
carries a doc comment starting with the words Modelled from the spec).
Bytes are modelled as natural numbers (values below 256 where produced),
byte buffers as lists, JNI object references (jbyteArray results, engine
and buffer handles) as Option values with none standing for NULL / the
zero handle.
-/

namespace Pentagram

/-- A byte buffer crossing the JNI boundary: a list of byte values. -/
abbrev Bytes := List Nat

/-- Failure kinds of the core (spec section 7): wrong buffer length,
out-of-order call, primitive/verification failure, Decrypt before
InitStream, allocation failure.  notInitStream models the NotInitialized
error of StreamDecryptor.Decrypt, notReady the NotReady error of
DecryptKey. -/
inductive FpError where
  | invalidInput
  | sequenceError
  | cryptoFailure
  | notReady
  | notInitStream
  | allocFailure
  deriving DecidableEq, Repr

/-- Session states of the HandshakeEngine.  The spec names the post-Init
state and the post-Setup state both AwaitingHandshake but requires
Handshake before any successful Setup to fail with SequenceError, so the
two are kept distinct here: awaitingSetup is the state right after Init,
awaitingHandshake the state after a successful Setup. -/
inductive FpState where
  | awaitingSetup
  | awaitingHandshake
  | ready
  | failed
  deriving DecidableEq, Repr

/-- The fairplay engine state: internal key material (abstracted to a
number; generated at Init, owned by the engine) and the session state. -/
structure Fairplay where
  km : Nat
  st : FpState
  deriving DecidableEq, Repr

/-- The cryptographic internals of the handshake, which the spec leaves
deliberately unspecified (section 9, open question): the 142-byte Setup
response for a 16-byte request, the verification predicate and 32-byte
response of Handshake, and the key unwrap of DecryptKey (16 bytes, may
fail).  The engine model is parametric in these, so every theorem below
holds for every choice of the underlying primitives. -/
structure FpCrypto where
  setupResp : Bytes → Fin 142 → Nat
  handshakeOk : Bytes → Bool
  handshakeResp : Bytes → Fin 32 → Nat
  keyUnwrap : Bytes → Option (Fin 16 → Nat)

/-- Modelled from the spec: fairplay_init (fairplay.c is not among the
available sources) allocates the engine with fresh internal key material,
ready for Setup. -/
def fairplay_init : Fairplay := ⟨0, FpState.awaitingSetup⟩

/-- Modelled from the spec: fairplay_setup (fairplay.c is not among the
available sources).  Validates the 16-byte request length before touching
cryptographic state (InvalidInput otherwise); on success serializes the
fixed 142-byte response and moves toward the handshake round. -/
def fairplay_setup (C : FpCrypto) (e : Fairplay) (req : Bytes) :
    Fairplay × Except FpError Bytes :=
  if req.length = 16 then
    match e.st with
    | FpState.awaitingSetup =>
        (⟨e.km, FpState.awaitingHandshake⟩, Except.ok (List.ofFn (C.setupResp req)))
    | FpState.awaitingHandshake =>
        (⟨e.km, FpState.awaitingHandshake⟩, Except.ok (List.ofFn (C.setupResp req)))
    | FpState.ready => (e, Except.error FpError.sequenceError)
    | FpState.failed => (e, Except.error FpError.sequenceError)
  else (e, Except.error FpError.invalidInput)

/-- Modelled from the spec: fairplay_handshake (fairplay.c is not among
the available sources).  Validates the 164-byte length; fails with
SequenceError unless a successful Setup happened first; verifies the
sender proof, returning the fixed 32-byte response and entering Ready on
success, entering Failed on verification failure. -/
def fairplay_handshake (C : FpCrypto) (e : Fairplay) (req : Bytes) :
    Fairplay × Except FpError Bytes :=
  if req.length = 164 then
    match e.st with
    | FpState.awaitingSetup => (e, Except.error FpError.sequenceError)
    | FpState.awaitingHandshake =>
        if C.handshakeOk req then
          (⟨e.km, FpState.ready⟩, Except.ok (List.ofFn (C.handshakeResp req)))
        else (⟨e.km, FpState.failed⟩, Except.error FpError.cryptoFailure)
    | FpState.ready => (e, Except.error FpError.sequenceError)
    | FpState.failed => (e, Except.error FpError.sequenceError)
  else (e, Except.error FpError.invalidInput)

/-- Modelled from the spec: fairplay_decrypt (fairplay.c is not among the
available sources).  Only valid in the Ready state (NotReady otherwise);
validates the 72-byte wrapped-key length; unwraps to a 16-byte content
key, leaving the state unchanged. -/
def fairplay_decrypt (C : FpCrypto) (e : Fairplay) (ekey : Bytes) :
    Fairplay × Except FpError Bytes :=
  if ekey.length = 72 then
    match e.st with
    | FpState.ready =>
        match C.keyUnwrap ekey with
        | some k => (e, Except.ok (List.ofFn k))
        | none => (e, Except.error FpError.cryptoFailure)
    | FpState.awaitingSetup => (e, Except.error FpError.notReady)
    | FpState.awaitingHandshake => (e, Except.error FpError.notReady)
    | FpState.failed => (e, Except.error FpError.notReady)
  else (e, Except.error FpError.invalidInput)

/-- nativeInit of fairplay_jni.c: if the global engine already exists it
logs and returns 0 without reinitializing; otherwise it creates the
engine via fairplay_init and returns 0. -/
def FairPlay_nativeInit (g : Option Fairplay) : Option Fairplay × Int :=
  match g with
  | some e => (some e, 0)
  | none => (some fairplay_init, 0)

/-- nativeSetup of fairplay_jni.c: NULL result if the engine is missing
or the request length differs from 16 (checked before any call into the
library); otherwise calls fairplay_setup and marshals the 142-byte
response, returning NULL on library failure. -/
def FairPlay_nativeSetup (C : FpCrypto) (g : Option Fairplay) (request : Bytes) :
    Option Fairplay × Option Bytes :=
  match g with
  | none => (none, none)
  | some e =>
    if request.length = 16 then
      match fairplay_setup C e request with
      | (e2, Except.ok res) => (some e2, some res)
      | (e2, Except.error _) => (some e2, none)
    else (some e, none)

/-- nativeHandshake of fairplay_jni.c: NULL if the engine is missing or
the request length differs from 164; otherwise calls fairplay_handshake
and marshals the 32-byte response, NULL on library failure. -/
def FairPlay_nativeHandshake (C : FpCrypto) (g : Option Fairplay) (request : Bytes) :
    Option Fairplay × Option Bytes :=
  match g with
  | none => (none, none)
  | some e =>
    if request.length = 164 then
      match fairplay_handshake C e request with
      | (e2, Except.ok res) => (some e2, some res)
      | (e2, Except.error _) => (some e2, none)
    else (some e, none)

/-- nativeDecrypt of fairplay_jni.c: NULL if the engine is missing or the
wrapped-key length differs from 72; otherwise calls fairplay_decrypt and
marshals the 16-byte content key, NULL on library failure. -/
def FairPlay_nativeDecrypt (C : FpCrypto) (g : Option Fairplay) (ekey : Bytes) :
    Option Fairplay × Option Bytes :=
  match g with
  | none => (none, none)
  | some e =>
    if ekey.length = 72 then
      match fairplay_decrypt C e ekey with
      | (e2, Except.ok res) => (some e2, some res)
      | (e2, Except.error _) => (some e2, none)
    else (some e, none)

/-- nativeDestroy of fairplay_jni.c: destroys the engine when present and
clears the global, so a repeated call finds NULL and does nothing. -/
def FairPlay_nativeDestroy (g : Option Fairplay) : Option Fairplay :=
  match g with
  | some _ => none
  | none => none

/-- The mirror-buffer stream decryptor state: the 16-byte content key
stored at construction, and the stream context established by InitStream:
none before InitStream, otherwise the bound stream-connection identifier
together with the running byte offset of the counter mode. -/
structure MirrorBuffer where
  key : Bytes
  stream : Option (Nat × Nat)
  deriving DecidableEq, Repr

/-- Modelled from the spec: mirror_buffer_init (mirror_buffer.c is not
among the available sources) stores the 16-byte content key; no stream
context is established yet. -/
def mirror_buffer_init (key : Bytes) : MirrorBuffer := ⟨key, none⟩

/-- Modelled from the spec: mirror_buffer_init_aes (mirror_buffer.c is
not among the available sources) binds the decryptor to the given
stream-connection identifier, deriving a fresh counter-mode starting
state and resetting the byte offset to zero. -/
def mirror_buffer_init_aes (b : MirrorBuffer) (sid : Nat) : MirrorBuffer :=
  ⟨b.key, some (sid, 0)⟩

/-- Bytewise counter-mode combination: each input byte is xor-ed with the
keystream byte at its absolute offset (reduced to a byte value). -/
def ctrXor (f : Nat → Nat) : Nat → Bytes → Bytes
  | _, [] => []
  | off, x :: xs => (Nat.xor x (f off)) % 256 :: ctrXor f (off + 1) xs

/-- Modelled from the spec: mirror_buffer_decrypt (mirror_buffer.c is not
among the available sources).  Counter-mode decryption at the current
byte offset, advancing the offset by the input length; NotInitialized
before InitStream.  Parametric in the keystream ks, a function of the
content key, the stream-connection identifier and the absolute byte
index, since the exact AES-CTR construction is outside the available
material; every theorem below holds for every keystream. -/
def mirror_buffer_decrypt (ks : Bytes → Nat → Nat → Nat) (b : MirrorBuffer)
    (input : Bytes) : MirrorBuffer × Except FpError Bytes :=
  match b.stream with
  | none => (b, Except.error FpError.notInitStream)
  | some (sid, off) =>
      (⟨b.key, some (sid, off + input.length)⟩,
       Except.ok (ctrXor (ks b.key sid) off input))

/-- nativeInit of mirror_buffer_jni.c: returns the zero handle when the
key length differs from 16, otherwise a handle to a freshly constructed
mirror buffer. -/
def MirrorBufferDecryptor_nativeInit (aeskey : Bytes) : Option MirrorBuffer :=
  if aeskey.length = 16 then some (mirror_buffer_init aeskey) else none

/-- nativeInitAes of mirror_buffer_jni.c: a void JNI entry point, so the
result carries no error component at all; with the zero handle it logs
and returns with no state change, otherwise it runs
mirror_buffer_init_aes on the buffer. -/
def MirrorBufferDecryptor_nativeInitAes (h : Option MirrorBuffer) (sid : Nat) :
    Option MirrorBuffer :=
  match h with
  | none => none
  | some b => some (mirror_buffer_init_aes b sid)

/-- nativeDecrypt of mirror_buffer_jni.c: NULL with the zero handle;
otherwise allocates an output array of the input size and runs
mirror_buffer_decrypt, a library failure surfacing as NULL. -/
def MirrorBufferDecryptor_nativeDecrypt (ks : Bytes → Nat → Nat → Nat)
    (h : Option MirrorBuffer) (input : Bytes) :
    Option MirrorBuffer × Option Bytes :=
  match h with
  | none => (none, none)
  | some b =>
    match mirror_buffer_decrypt ks b input with
    | (b2, Except.ok out) => (some b2, some out)
    | (b2, Except.error _) => (some b2, none)

/-- nativeDestroy of mirror_buffer_jni.c: releases the buffer when the
handle is nonzero (mirror_buffer_destroy, modelled from the spec as
zeroing and releasing key and stream state, idempotently), a no-op on the
zero handle. -/
def MirrorBufferDecryptor_nativeDestroy (h : Option MirrorBuffer) :
    Option MirrorBuffer :=
  match h with
  | some _ => none
  | none => none

/-- A concrete crypto instantiation used by the witnesses below. -/
def C0 : FpCrypto :=
  ⟨fun _ _ => 0, fun _ => true, fun _ _ => 0, fun _ => some fun _ => 0⟩

/-- A concrete engine right after Init, used by the witnesses below. -/
def e0 : Fairplay := fairplay_init

/-- A concrete keystream used by the witnesses below. -/
def ks0 : Bytes → Nat → Nat → Nat := fun _ _ i => i

/-- A concrete freshly constructed mirror buffer (no stream bound yet),
used by the witnesses below. -/
def mb0 : MirrorBuffer := mirror_buffer_init (List.replicate 16 7)

/-- The output of ctrXor has the length of its input. -/
theorem ctrXor_length (f : Nat → Nat) (off : Nat) (l : Bytes) :
    (ctrXor f off l).length = l.length := by
  induction l generalizing off with
  | nil => rfl
  | cons x xs ih => simp [ctrXor, ih]

/-- ctrXor splits over concatenation, the second part starting at the
offset advanced by the first part's length. -/
theorem ctrXor_append (f : Nat → Nat) (off : Nat) (A B : Bytes) :
    ctrXor f off (A ++ B) = ctrXor f off A ++ ctrXor f (off + A.length) B := by
  induction A generalizing off with
  | nil => simp [ctrXor]
  | cons a as ih =>
    have h : off + (as.length + 1) = off + 1 + as.length := by omega
    simp only [List.cons_append, ctrXor, List.length_cons, h, List.append_eq]
    rw [ih]

/-- C1: for every StreamDecryptor constructed with a key and bound to a
stream-connection identifier via InitStream, and every split of a byte
sequence into A followed by B, one Decrypt call on A ++ B returns the
concatenation of the outputs of Decrypt on A and then Decrypt on B, and
reaches the same final state — counter-mode chunk-boundary independence,
for every keystream. -/
theorem mirror_decrypt_chunk_indep (ks : Bytes → Nat → Nat → Nat) (key : Bytes)
    (sid : Nat) (A B oA oB oAB : Bytes) (s1 s2 s3 : MirrorBuffer)
    (hAB : mirror_buffer_decrypt ks (mirror_buffer_init_aes (mirror_buffer_init key) sid)
      (A ++ B) = (s3, Except.ok oAB))
    (hA : mirror_buffer_decrypt ks (mirror_buffer_init_aes (mirror_buffer_init key) sid)
      A = (s1, Except.ok oA))
    (hB : mirror_buffer_decrypt ks s1 B = (s2, Except.ok oB)) :
    oAB = oA ++ oB ∧ s3 = s2 := by
  simp only [mirror_buffer_decrypt, mirror_buffer_init_aes, mirror_buffer_init,
    Nat.zero_add, Prod.mk.injEq, Except.ok.injEq] at hAB hA
  obtain ⟨hs3, hoAB⟩ := hAB
  obtain ⟨hs1, hoA⟩ := hA
  subst hs1
  simp only [mirror_buffer_decrypt, Prod.mk.injEq, Except.ok.injEq] at hB
  obtain ⟨hs2, hoB⟩ := hB
  subst hs3
  subst hs2
  subst hoAB
  subst hoA
  subst hoB
  constructor
  · have h := ctrXor_append (ks key sid) 0 A B
    simpa using h
  · simp [List.length_append]

/-- C1 witness: a concrete key, stream identifier and split. -/
theorem mirror_decrypt_chunk_indep_witness :
    ([10, 21, 28] : Bytes) = [10] ++ [21, 28] ∧
      (⟨List.replicate 16 7, some (5, 3)⟩ : MirrorBuffer) =
        ⟨List.replicate 16 7, some (5, 3)⟩ :=
  mirror_decrypt_chunk_indep ks0 (List.replicate 16 7) 5 [10] [20, 30] [10] [21, 28]
    [10, 21, 28] ⟨List.replicate 16 7, some (5, 1)⟩ ⟨List.replicate 16 7, some (5, 3)⟩
    ⟨List.replicate 16 7, some (5, 3)⟩ rfl rfl rfl

/-- C4: on a StreamDecryptor on which InitStream has not yet been called
(no stream context), every Decrypt call fails with the NotInitialized
error, produces no output bytes and leaves the state untouched. -/
theorem mirror_decrypt_requires_initstream (ks : Bytes → Nat → Nat → Nat)
    (b : MirrorBuffer) (input : Bytes) (h : b.stream = none) :
    mirror_buffer_decrypt ks b input = (b, Except.error FpError.notInitStream) := by
  simp [mirror_buffer_decrypt, h]

/-- C4 witness: a freshly constructed decryptor rejects Decrypt. -/
theorem mirror_decrypt_requires_initstream_witness :
    mirror_buffer_decrypt ks0 mb0 [1, 2, 3] =
      (mb0, Except.error FpError.notInitStream) :=
  mirror_decrypt_requires_initstream ks0 mb0 [1, 2, 3] rfl

/-- C6: on an initialized StreamDecryptor, a successful Decrypt of an
input of length N returns exactly N output bytes and advances the
internal byte offset by N; the JNI wrapper then returns that same
length-preserving output. -/
theorem mirror_decrypt_length_offset (ks : Bytes → Nat → Nat → Nat)
    (b : MirrorBuffer) (input : Bytes) (sid off : Nat)
    (h : b.stream = some (sid, off)) :
    mirror_buffer_decrypt ks b input =
      (⟨b.key, some (sid, off + input.length)⟩,
       Except.ok (ctrXor (ks b.key sid) off input)) ∧
    (ctrXor (ks b.key sid) off input).length = input.length ∧
    (MirrorBufferDecryptor_nativeDecrypt ks (some b) input).2 =
      some (ctrXor (ks b.key sid) off input) := by
  have h1 : mirror_buffer_decrypt ks b input =
      (⟨b.key, some (sid, off + input.length)⟩,
       Except.ok (ctrXor (ks b.key sid) off input)) := by
    simp [mirror_buffer_decrypt, h]
  refine ⟨h1, ctrXor_length _ _ _, ?_⟩
  simp [MirrorBufferDecryptor_nativeDecrypt, h1]

/-- C6 witness: a concrete bound decryptor and a 2-byte input. -/
theorem mirror_decrypt_length_offset_witness :
    mirror_buffer_decrypt ks0 (mirror_buffer_init_aes mb0 5) [1, 2] =
      (⟨List.replicate 16 7, some (5, 2)⟩, Except.ok [1, 3]) ∧
    ([1, 3] : Bytes).length = ([1, 2] : Bytes).length ∧
    (MirrorBufferDecryptor_nativeDecrypt ks0 (some (mirror_buffer_init_aes mb0 5)) [1, 2]).2 =
      some [1, 3] := by
  exact mirror_decrypt_length_offset ks0 (mirror_buffer_init_aes mb0 5) [1, 2] 5 0 rfl

/-- C7: for both components a second Destroy after a first Destroy is an
idempotent no-op (the fairplay binding clears its global handle, the
mirror-buffer destroy releases the buffer), and the destroyed instance is
unusable: every further operation fails with the null/zero sentinel. -/
theorem destroy_idempotent_unusable (C : FpCrypto) (ks : Bytes → Nat → Nat → Nat)
    (g : Option Fairplay) (h : Option MirrorBuffer) (req input : Bytes) (sid : Nat) :
    FairPlay_nativeDestroy (FairPlay_nativeDestroy g) = FairPlay_nativeDestroy g ∧
    MirrorBufferDecryptor_nativeDestroy (MirrorBufferDecryptor_nativeDestroy h) =
      MirrorBufferDecryptor_nativeDestroy h ∧
    FairPlay_nativeSetup C (FairPlay_nativeDestroy g) req = (none, none) ∧
    FairPlay_nativeHandshake C (FairPlay_nativeDestroy g) req = (none, none) ∧
    FairPlay_nativeDecrypt C (FairPlay_nativeDestroy g) req = (none, none) ∧
    MirrorBufferDecryptor_nativeDecrypt ks (MirrorBufferDecryptor_nativeDestroy h) input =
      (none, none) ∧
    MirrorBufferDecryptor_nativeInitAes (MirrorBufferDecryptor_nativeDestroy h) sid =
      none := by
  cases g <;> cases h <;>
    simp [FairPlay_nativeDestroy, MirrorBufferDecryptor_nativeDestroy,
      FairPlay_nativeSetup, FairPlay_nativeHandshake, FairPlay_nativeDecrypt,
      MirrorBufferDecryptor_nativeDecrypt, MirrorBufferDecryptor_nativeInitAes]

/-- C9: Init on an already-initialized engine returns success (0) and the
exact same engine object: no reinitialization, the internal key material
is untouched. -/
theorem fp_init_idempotent (e : Fairplay) :
    FairPlay_nativeInit (some e) = (some e, 0) := rfl

/-- C10: InitStream at the binding layer is a void entry point, so its
result type has no error component and no call can report failure; with
the invalid (null/zero) handle it returns having changed nothing, and
with a valid handle it binds the stream via mirror_buffer_init_aes —
either way the caller receives no signal. -/
theorem mirror_initaes_silent (sid : Nat) (b : MirrorBuffer) :
    MirrorBufferDecryptor_nativeInitAes none sid = none ∧
    MirrorBufferDecryptor_nativeInitAes (some b) sid =
      some (mirror_buffer_init_aes b sid) :=
  ⟨rfl, rfl⟩

/-- A successful fairplay_setup always returns exactly 142 bytes, for
every crypto instantiation and engine state. -/
theorem fairplay_setup_ok_length (C : FpCrypto) (e e2 : Fairplay) (req res : Bytes)
    (h : fairplay_setup C e req = (e2, Except.ok res)) : res.length = 142 := by
  unfold fairplay_setup at h
  split at h
  · split at h <;>
      first
        | (injection h with h1 h2
           injection h2 with h3
           rw [← h3]
           exact List.length_ofFn _)
        | (injection h with h1 h2
           injection h2)
  · injection h with h1 h2
    injection h2

/-- C2: on an initialized engine, a Setup call that succeeds returns a
response of exactly 142 bytes; a request whose length differs from 16
fails with InvalidInput before any cryptographic processing, the engine
state untouched and the binding returning the null sentinel. -/
theorem fp_setup_contract (C : FpCrypto) (e : Fairplay) (g g2 : Option Fairplay)
    (req res : Bytes) :
    (FairPlay_nativeSetup C g req = (g2, some res) → res.length = 142) ∧
    (req.length ≠ 16 →
      fairplay_setup C e req = (e, Except.error FpError.invalidInput) ∧
      FairPlay_nativeSetup C (some e) req = (some e, none)) := by
  constructor
  · intro hres
    cases g with
    | none => simp [FairPlay_nativeSetup] at hres
    | some e1 =>
      dsimp only [FairPlay_nativeSetup] at hres
      by_cases hlen : req.length = 16
      · rw [if_pos hlen] at hres
        cases hset : fairplay_setup C e1 req with
        | mk e2 r =>
          rw [hset] at hres
          cases r with
          | ok out =>
            simp only [Prod.mk.injEq, Option.some.injEq] at hres
            obtain ⟨-, hout⟩ := hres
            subst hout
            exact fairplay_setup_ok_length C e1 e2 req out hset
          | error err => simp at hres
      · rw [if_neg hlen] at hres
        simp at hres
  · intro hlen
    refine ⟨?_, ?_⟩
    · simp [fairplay_setup, hlen]
    · simp [FairPlay_nativeSetup, hlen]

/-- C2 witness: a 16-byte all-zero request succeeds with 142 bytes and a
15-byte request is rejected with InvalidInput, state unchanged. -/
theorem fp_setup_contract_witness :
    (List.ofFn (C0.setupResp (List.replicate 16 0))).length = 142 ∧
    (fairplay_setup C0 e0 (List.replicate 15 0) =
       (e0, Except.error FpError.invalidInput) ∧
     FairPlay_nativeSetup C0 (some e0) (List.replicate 15 0) = (some e0, none)) := by
  constructor
  · exact (fp_setup_contract C0 e0 (some e0) (some ⟨0, FpState.awaitingHandshake⟩)
      (List.replicate 16 0) (List.ofFn (C0.setupResp (List.replicate 16 0)))).1 rfl
  · exact (fp_setup_contract C0 e0 none none (List.replicate 15 0) []).2 (by decide)

/-- C3: Handshake invoked before any successful Setup (engine still in
the post-Init state) fails with SequenceError even on a 164-byte input,
and DecryptKey invoked while the engine is in any state other than Ready
fails with NotReady even on a 72-byte input. -/
theorem fp_pre_setup_sequencing (C : FpCrypto) (e e2 : Fairplay) (req ek : Bytes)
    (h1 : e.st = FpState.awaitingSetup) (h2 : req.length = 164)
    (h3 : e2.st ≠ FpState.ready) (h4 : ek.length = 72) :
    (fairplay_handshake C e req).2 = Except.error FpError.sequenceError ∧
    (fairplay_decrypt C e2 ek).2 = Except.error FpError.notReady := by
  constructor
  · simp [fairplay_handshake, h1, h2]
  · cases hst : e2.st with
    | awaitingSetup => simp [fairplay_decrypt, hst, h4]
    | awaitingHandshake => simp [fairplay_decrypt, hst, h4]
    | ready => exact absurd hst h3
    | failed => simp [fairplay_decrypt, hst, h4]

/-- C3 witness: the freshly initialized engine rejects a 164-byte
Handshake with SequenceError and a 72-byte DecryptKey with NotReady. -/
theorem fp_pre_setup_sequencing_witness :
    (fairplay_handshake C0 e0 (List.replicate 164 0)).2 =
      Except.error FpError.sequenceError ∧
    (fairplay_decrypt C0 e0 (List.replicate 72 0)).2 =
      Except.error FpError.notReady :=
  fp_pre_setup_sequencing C0 e0 e0 (List.replicate 164 0) (List.replicate 72 0)
    rfl (by simp) (by decide) (by simp)

/-- C8: a Setup call with a wrongly sized request leaves the engine in
its pre-Setup state with the null failure result, and a subsequent
correctly sized Setup on that same engine still succeeds with the full
142-byte response. -/
theorem fp_setup_bad_length_recovery (C : FpCrypto) (e : Fairplay)
    (req15 req16 : Bytes) (h15 : req15.length ≠ 16) (h16 : req16.length = 16)
    (hst : e.st = FpState.awaitingSetup) :
    FairPlay_nativeSetup C (some e) req15 = (some e, none) ∧
    FairPlay_nativeSetup C (some e) req16 =
      (some ⟨e.km, FpState.awaitingHandshake⟩,
       some (List.ofFn (C.setupResp req16))) ∧
    (List.ofFn (C.setupResp req16)).length = 142 := by
  refine ⟨?_, ?_, List.length_ofFn _⟩
  · simp [FairPlay_nativeSetup, h15]
  · dsimp only [FairPlay_nativeSetup]
    rw [if_pos h16]
    unfold fairplay_setup
    rw [if_pos h16, hst]

/-- C8 witness: a 15-byte then a 16-byte request on the fresh engine. -/
theorem fp_setup_bad_length_recovery_witness :
    FairPlay_nativeSetup C0 (some e0) (List.replicate 15 0) = (some e0, none) ∧
    FairPlay_nativeSetup C0 (some e0) (List.replicate 16 0) =
      (some ⟨0, FpState.awaitingHandshake⟩,
       some (List.ofFn (C0.setupResp (List.replicate 16 0)))) ∧
    (List.ofFn (C0.setupResp (List.replicate 16 0))).length = 142 :=
  fp_setup_bad_length_recovery C0 e0 (List.replicate 15 0) (List.replicate 16 0)
    (by decide) (by decide) rfl

/-- C5 counterexample: at the caller-visible JNI boundary two different
failure classes yield the identical value. Setup with a valid 16-byte
request on the missing (uninitialized) engine — a wrong-call-order
failure — returns the null sentinel, and Setup on an initialized engine
with a 15-byte request — a bad-input failure — returns the very same
null sentinel, so the two classes are not distinguished by any
caller-visible failure value. -/
theorem fp_error_collapse_counterexample :
    (FairPlay_nativeSetup C0 none (List.replicate 16 0)).2 = none ∧
    (FairPlay_nativeSetup C0 (some e0) (List.replicate 15 0)).2 = none :=
  ⟨rfl, rfl⟩

/-- C5 amended: inside the core library the three failure classes are
reported as pairwise distinct typed error values (InvalidInput for bad
input; SequenceError, NotReady and the stream NotInitialized error for
wrong call order; CryptoFailure for primitive or verification failure),
but the JNI binding layer collapses every failure to the same null
sentinel, so the classes are distinguished in the core result and not in
the caller-visible value. -/
theorem fp_error_reporting_amended (C : FpCrypto) (e : Fairplay) (req : Bytes)
    (h : req.length ≠ 16) :
    (FpError.invalidInput ≠ FpError.sequenceError ∧
     FpError.invalidInput ≠ FpError.cryptoFailure ∧
     FpError.invalidInput ≠ FpError.notReady ∧
     FpError.invalidInput ≠ FpError.notInitStream ∧
     FpError.sequenceError ≠ FpError.cryptoFailure ∧
     FpError.notReady ≠ FpError.cryptoFailure ∧
     FpError.notInitStream ≠ FpError.cryptoFailure) ∧
    (fairplay_setup C e req).2 = Except.error FpError.invalidInput ∧
    (FairPlay_nativeSetup C (some e) req).2 = none ∧
    (FairPlay_nativeSetup C none req).2 = none := by
  refine ⟨⟨by decide, by decide, by decide, by decide, by decide, by decide, by decide⟩,
    ?_, ?_, rfl⟩
  · simp [fairplay_setup, h]
  · simp [FairPlay_nativeSetup, h]

/-- C5 amended witness: the distinctions and the collapse at a 15-byte
request on the fresh engine. -/
theorem fp_error_reporting_amended_witness :
    (FpError.invalidInput ≠ FpError.sequenceError ∧
     FpError.invalidInput ≠ FpError.cryptoFailure ∧
     FpError.invalidInput ≠ FpError.notReady ∧
     FpError.invalidInput ≠ FpError.notInitStream ∧
     FpError.sequenceError ≠ FpError.cryptoFailure ∧
     FpError.notReady ≠ FpError.cryptoFailure ∧
     FpError.notInitStream ≠ FpError.cryptoFailure) ∧
    (fairplay_setup C0 e0 (List.replicate 15 0)).2 =
      Except.error FpError.invalidInput ∧
    (FairPlay_nativeSetup C0 (some e0) (List.replicate 15 0)).2 = none ∧
    (FairPlay_nativeSetup C0 none (List.replicate 15 0)).2 = none :=
  fp_error_reporting_amended C0 e0 (List.replicate 15 0) (by decide)

end Pentagram
